import Mathlib

/-!
Shallow embedding of `proxy_checker.py` (Clash proxy checker): the `Config`
loader/saver and the `ProxyChecker` inspection client, with theorems checking
the specification's claims against the embedded code.

Python exceptions are modelled with `Except PyErr`; YAML/JSON values with the
inductive `YVal`; the filesystem and the control API are oracles passed in
explicitly.  Network requests issued by an operation are returned as an
explicit list so that temporal claims about request ordering can be stated.
-/

set_option autoImplicit false

namespace ProxyCheck

/-- A YAML/JSON value as produced by `yaml.safe_load` / `response.json()`. -/
inductive YVal where
  | int : Int → YVal
  | str : String → YVal
  | bool : Bool → YVal
  | null : YVal
  | arr : List YVal → YVal
  | obj : List (String × YVal) → YVal

/-- The Python exceptions the embedded code can raise. -/
inductive PyErr where
  | stopIteration : PyErr
  | keyError : String → PyErr
  | attributeError : String → PyErr
  | fileNotFoundError : String → PyErr
  | typeError : PyErr
deriving DecidableEq, Repr

/-- The Python class of an exception value (messages stripped). -/
def PyErr.className : PyErr → String
  | .stopIteration => "StopIteration"
  | .keyError _ => "KeyError"
  | .attributeError _ => "AttributeError"
  | .fileNotFoundError _ => "FileNotFoundError"
  | .typeError => "TypeError"

/-- A Python dict with insertion order, as an association list. -/
abbrev Obj := List (String × YVal)

/-- `d.get(k)`: first binding of `k`, if any. -/
def Obj.get (o : Obj) (k : String) : Option YVal :=
  match o with
  | [] => none
  | (k0, v0) :: rest => if k0 = k then some v0 else Obj.get rest k

/-- `d[k] = v`: replace the binding of `k` in place, appending when absent
(dict keys are unique, so replacing the first binding is dict assignment). -/
def Obj.set (o : Obj) (k : String) (v : YVal) : Obj :=
  match o with
  | [] => [(k, v)]
  | (k0, v0) :: rest => if k0 = k then (k, v) :: rest else (k0, v0) :: Obj.set rest k v

/-- `d[k]` on a value: `KeyError` when the key is absent, `TypeError` when the
value is not a dict. -/
def dictIndex (v : YVal) (k : String) : Except PyErr YVal :=
  match v with
  | .obj fields =>
    match Obj.get fields k with
    | some x => .ok x
    | none => .error (.keyError k)
  | _ => .error .typeError

/-- Python truthiness of a JSON value (`bool(v)`). -/
def truthy : YVal → Bool
  | .int i => i != 0
  | .str s => s != ""
  | .bool b => b
  | .null => false
  | .arr l => !l.isEmpty
  | .obj o => !o.isEmpty

/-- Filesystem oracle: `os.path.exists`, `os.path.isfile`, and the parsed
YAML document behind a path (parsing itself is not modelled). -/
structure FileSys where
  pathExists : String → Bool
  isfile : String → Bool
  readYaml : String → Obj

/-- The `Config` object: the loaded document, and the `healthy_proxies`
attribute, which is `none` until `add_proxy` first creates it. -/
structure Config where
  data : Obj
  healthy_proxies : Option (List YVal)

/-- `Config.__init__`: fail when the path does not exist, fail when it is not
a regular file, otherwise load the YAML document. -/
def Config.init (fs : FileSys) (config_path : String) : Except PyErr Config :=
  if fs.pathExists config_path = false then
    .error (.fileNotFoundError (config_path ++ " not found."))
  else if fs.isfile config_path = false then
    .error (.fileNotFoundError (config_path ++ " is not a file."))
  else
    .ok { data := fs.readYaml config_path, healthy_proxies := none }

/-- `self.data["proxies"]`, which the lookup then iterates as a list. -/
def Config.proxiesList (c : Config) : Except PyErr (List YVal) :=
  match Obj.get c.data "proxies" with
  | some (.arr l) => .ok l
  | some _ => .error .typeError
  | none => .error (.keyError "proxies")

/-- `proxy["name"] == proxy_name`: Python equality of the name field against
the string (a non-string name value is simply unequal). -/
def nameMatches (v : YVal) (n : String) : Bool :=
  match v with
  | .str s => s = n
  | _ => false

/-- `next(proxy for proxy in proxies if proxy["name"] == proxy_name)`:
first match wins, exhaustion raises `StopIteration`. -/
def findProxy (n : String) : List YVal → Except PyErr YVal
  | [] => .error .stopIteration
  | p :: rest =>
    match dictIndex p "name" with
    | .error e => .error e
    | .ok v => if nameMatches v n then .ok p else findProxy n rest

/-- `Config.fetch_proxy`. -/
def Config.fetch_proxy (c : Config) (proxy_name : String) : Except PyErr YVal := do
  let proxies ← c.proxiesList
  findProxy proxy_name proxies

/-- `Config.add_proxy`: create `healthy_proxies` as `[]` when absent, fetch
the named entry, append it.  (A raised exception is modelled as `Except.error`
without the partial attribute-creation side effect, which no later operation
in the program observes on the error path.) -/
def Config.add_proxy (c : Config) (proxy_name : String) : Except PyErr Config :=
  let hp := c.healthy_proxies.getD []
  match c.fetch_proxy proxy_name with
  | .error e => .error e
  | .ok p => .ok { c with healthy_proxies := some (hp ++ [p]) }

/-- `Config.save`: replace the document's `proxies` field with the
accumulator and serialize.  Returns the written document; the timestamped
output filename is an I/O detail outside the embedding.  Reading
`self.healthy_proxies` when `add_proxy` never created it raises
`AttributeError`. -/
def Config.save (c : Config) : Except PyErr Obj :=
  match c.healthy_proxies with
  | none => .error (.attributeError "healthy_proxies")
  | some hp => .ok (Obj.set c.data "proxies" (.arr hp))

/-- A request issued to the control API. -/
inductive Req where
  | proxiesReq : Req
  | detailsReq : String → Req
  | delayReq : String → String → Int → Req

/-- Control-API oracle: the JSON bodies the daemon answers with, per
endpoint.  The base URL and the bearer-token header are connection plumbing
carried by every request and are absorbed into the oracle. -/
structure Net where
  proxiesResp : YVal
  detailsResp : String → YVal
  delayResp : String → YVal

/-- The fixed probe URL of delay checks. -/
def probeUrl : String := "http://www.gstatic.com/generate_204"

/-- The daemon type tags the checker treats as proxy groups, verbatim from
the source: `("Direct", "Reject", "select", "url-test", "relay", "fallback")`. -/
def excludedTypes : List String :=
  ["Direct", "Reject", "select", "url-test", "relay", "fallback"]

/-- `proxy["type"] not in ("Direct", ...)`: Python membership of the tag value
in the string tuple (a non-string tag is in no member, hence not excluded). -/
def typeIsExcluded (t : YVal) : Bool :=
  match t with
  | .str s => excludedTypes.contains s
  | _ => false

/-- The members of the `all` list as name strings (per the control-API
contract they are strings; anything else is malformed). -/
def asNames : List YVal → Except PyErr (List String)
  | [] => .ok []
  | .str s :: rest => (asNames rest).map (s :: ·)
  | _ :: _ => .error .typeError

/-- `data["proxies"]["GLOBAL"]["all"]` decoded to the list of proxy names. -/
def parseProxyNames (body : YVal) : Except PyErr (List String) := do
  let p ← dictIndex body "proxies"
  let g ← dictIndex p "GLOBAL"
  let a ← dictIndex g "all"
  match a with
  | .arr items => asNames items
  | _ => .error .typeError

/-- `ProxyChecker.get_proxy_details`: one GET, body returned verbatim. -/
def get_proxy_details (net : Net) (proxy_name : String) : List Req × YVal :=
  ([.detailsReq proxy_name], net.detailsResp proxy_name)

/-- `ProxyChecker._validate_proxy`: fetch the details, keep the entry unless
its type tag is an excluded group kind. -/
def validate_proxy (net : Net) (proxy_name : String) : List Req × Except PyErr Bool :=
  let (reqs, details) := get_proxy_details net proxy_name
  (reqs,
    match dictIndex details "type" with
    | .ok t => .ok (!typeIsExcluded t)
    | .error e => .error e)

/-- `list(filter(self._validate_proxy, proxies))`: evaluate the predicate left
to right, propagating the first raised exception. -/
def filterValidate (net : Net) : List String → List Req × Except PyErr (List String)
  | [] => ([], .ok [])
  | n :: rest =>
    match validate_proxy net n with
    | (reqs, .error e) => (reqs, .error e)
    | (reqs, .ok b) =>
      match filterValidate net rest with
      | (reqs2, .error e) => (reqs ++ reqs2, .error e)
      | (reqs2, .ok l) => (reqs ++ reqs2, .ok (if b then n :: l else l))

/-- `ProxyChecker.get_proxies`: GET the proxy table, take `GLOBAL.all`, and
filter it through `_validate_proxy`. -/
def get_proxies (net : Net) : List Req × Except PyErr (List String) :=
  match parseProxyNames net.proxiesResp with
  | .error e => ([.proxiesReq], .error e)
  | .ok names =>
    match filterValidate net names with
    | (reqs, res) => (Req.proxiesReq :: reqs, res)

/-- `data.get("delay") or data["message"]`: the delay field when present and
truthy, otherwise the message field, whose absence raises `KeyError`. -/
def delayOrMessage (data : YVal) : Except PyErr YVal :=
  match data with
  | .obj fields =>
    match Obj.get fields "delay" with
    | some v =>
      if truthy v then .ok v
      else
        match Obj.get fields "message" with
        | some m => .ok m
        | none => .error (.keyError "message")
    | none =>
      match Obj.get fields "message" with
      | some m => .ok m
      | none => .error (.keyError "message")
  | _ => .error .typeError

/-- `ProxyChecker.get_proxy_delay`: GET the delay sub-resource with the probe
URL and the configured timeout as query parameters, then decode. -/
def get_proxy_delay (net : Net) (timeout : Int) (proxy_name : String) :
    List Req × Except PyErr YVal :=
  ([.delayReq proxy_name probeUrl timeout], delayOrMessage (net.delayResp proxy_name))

/-- The terminal colors the original picks per delay. -/
inductive Color where
  | green : Color
  | yellow : Color
  | red : Color
deriving DecidableEq, Repr

/-- The severity band a color conveys (spec §4.2: green = good,
yellow = degraded, red = bad). -/
inductive Severity where
  | good : Severity
  | degraded : Severity
  | bad : Severity
deriving DecidableEq, Repr

def Color.severity : Color → Severity
  | .green => .good
  | .yellow => .degraded
  | .red => .bad

/-- The color choice of `exec`: `type(delay) == int` then threshold tests;
any non-int delay value is red. -/
def delayColor (delay : YVal) : Color :=
  match delay with
  | .int d => if d < 500 then .green else if d < 900 then .yellow else .red
  | _ => .red

/-- One printed line of `exec`: `f"{proxy}\t{color}{delay}{Fore.RESET}"`. -/
structure Line where
  proxy : String
  color : Color
  delay : YVal

/-- The per-proxy loop body of `exec`, over an already-fetched name list:
requests issued, lines printed before any exception, and the outcome. -/
def execLoop (net : Net) (timeout : Int) :
    List String → List Req × List Line × Except PyErr Unit
  | [] => ([], [], .ok ())
  | n :: rest =>
    match get_proxy_delay net timeout n with
    | (reqs, .error e) => (reqs, [], .error e)
    | (reqs, .ok d) =>
      match execLoop net timeout rest with
      | (reqs2, lines, res) =>
        (reqs ++ reqs2, { proxy := n, color := delayColor d, delay := d } :: lines, res)

/-- `ProxyChecker.exec`: list the proxies, then check and print each one. -/
def exec (net : Net) (timeout : Int) : List Req × List Line × Except PyErr Unit :=
  match get_proxies net with
  | (reqs, .error e) => (reqs, [], .error e)
  | (reqs, .ok names) =>
    match execLoop net timeout names with
    | (reqs2, lines, res) => (reqs ++ reqs2, lines, res)

/-- `ProxyChecker.__init__`: load the configuration, set up the connection
parameters, and run `exec`.  The constructor arguments `external_controller`
and `secret` only shape the base URL and auth header absorbed into `Net`. -/
def ProxyChecker.run (fs : FileSys) (net : Net) (config_path : String)
    (timeout : Int) : List Req × List Line × Except PyErr Unit :=
  match Config.init fs config_path with
  | .error e => ([], [], .error e)
  | .ok _cfg => exec net timeout

/-- A sequence of `add_proxy` calls, stopping at the first raised exception. -/
def add_proxies (c : Config) : List String → Except PyErr Config
  | [] => .ok c
  | n :: rest =>
    match c.add_proxy n with
    | .error e => .error e
    | .ok c2 => add_proxies c2 rest

/-- The excluded kind set exactly as the specification words it:
lowercase names, with `selector` rather than the daemon tag `select`. -/
def specExcludedKinds : List String :=
  ["direct", "reject", "selector", "url-test", "relay", "fallback"]

/-! Concrete fixtures used to instantiate the theorems. -/

/-- A filesystem on which no path exists. -/
def fsMissing : FileSys :=
  { pathExists := fun _ => false, isfile := fun _ => false, readYaml := fun _ => [] }

/-- A filesystem on which every path exists but none is a regular file. -/
def fsDir : FileSys :=
  { pathExists := fun _ => true, isfile := fun _ => false, readYaml := fun _ => [] }

/-- A small loaded document: one sibling field and one proxy entry. -/
def docA : Obj :=
  [("port", .int 7890), ("proxies", .arr [.obj [("name", .str "a")]])]

/-- A filesystem serving `docA` at every regular-file path. -/
def fsDocA : FileSys :=
  { pathExists := fun _ => true, isfile := fun _ => true, readYaml := fun _ => docA }

/-- Proxy entry named `a`. -/
def entryA : YVal := .obj [("name", .str "a"), ("server", .str "1.1.1.1")]

/-- Proxy entry named `b`. -/
def entryB : YVal := .obj [("name", .str "b"), ("server", .str "2.2.2.2")]

/-- A document holding `entryA` and `entryB` plus two sibling fields. -/
def docAB : Obj :=
  [("port", .int 7890), ("proxies", .arr [entryA, entryB]), ("mode", .str "rule")]

/-- The entry of `docAB` recorded for a given name. -/
def pickAB (n : String) : YVal := if n = "a" then entryA else entryB

/-- Proxy entry named `w`. -/
def entryW : YVal := .obj [("name", .str "w")]

/-- First of two entries sharing the name `x`. -/
def entryX1 : YVal := .obj [("name", .str "x"), ("server", .str "1.1.1.1")]

/-- Second of two entries sharing the name `x`. -/
def entryX2 : YVal := .obj [("name", .str "x"), ("server", .str "2.2.2.2")]

/-- A document whose proxies list has two entries named `x`. -/
def docDup : Obj := [("proxies", .arr [entryW, entryX1, entryX2])]

/-- A daemon whose global group lists one member tagged `selector`. -/
def netSelectorTag : Net :=
  { proxiesResp := .obj [("proxies", .obj [("GLOBAL", .obj [("all", .arr [.str "p"])])])]
  , detailsResp := fun _ => .obj [("type", .str "selector")]
  , delayResp := fun _ => .null }

/-- A daemon with members `a`, `g`, `b`, where `g` is a `select` group, and
delay answers of 320 ms for `a` and a timeout message for `b`. -/
def netMixed : Net :=
  { proxiesResp := .obj [("proxies", .obj [("GLOBAL", .obj [("all", .arr [.str "a", .str "g", .str "b"])])])]
  , detailsResp := fun n => if n = "g" then .obj [("type", .str "select")] else .obj [("type", .str "ss")]
  , delayResp := fun n => if n = "a" then .obj [("delay", .int 320)] else .obj [("message", .str "timeout")] }

/-- The kind tag `netMixed` answers for each member. -/
def tagMixed (n : String) : YVal := if n = "g" then .str "select" else .str "ss"

/-- The decoded delay result `netMixed` yields for each leaf member. -/
def delayMixed (n : String) : YVal := if n = "a" then .int 320 else .str "timeout"

/-! ## Dictionary lemmas -/

theorem Obj.get_set_self (o : Obj) (k : String) (v : YVal) :
    Obj.get (Obj.set o k v) k = some v := by
  induction o with
  | nil => simp [Obj.set, Obj.get]
  | cons kv rest ih =>
    obtain ⟨k0, v0⟩ := kv
    by_cases h : k0 = k
    · simp [Obj.set, Obj.get, h]
    · simp [Obj.set, Obj.get, h, ih]

theorem Obj.get_set_ne (o : Obj) (k k2 : String) (v : YVal) (h : k2 ≠ k) :
    Obj.get (Obj.set o k v) k2 = Obj.get o k2 := by
  induction o with
  | nil => simp [Obj.set, Obj.get, Ne.symm h]
  | cons kv rest ih =>
    obtain ⟨k0, v0⟩ := kv
    by_cases h0 : k0 = k
    · subst h0
      simp [Obj.set, Obj.get, Ne.symm h]
    · by_cases h2 : k0 = k2 <;> simp [Obj.set, Obj.get, h, h0, h2, ih]

/-! ## Claim theorems -/

/-- C2: for a delay-check response object, `get_proxy_delay` returns the
`delay` field when it is present and non-zero, and otherwise returns the
`message` field; in particular a `delay` of exactly 0 falls through to the
`message` field. -/
theorem delayOrMessage_field_contract (fields : Obj) :
    (∀ d : Int, Obj.get fields "delay" = some (.int d) → d ≠ 0 →
      delayOrMessage (.obj fields) = .ok (.int d)) ∧
    (∀ m : YVal, Obj.get fields "delay" = none → Obj.get fields "message" = some m →
      delayOrMessage (.obj fields) = .ok m) ∧
    (∀ m : YVal, Obj.get fields "delay" = some (.int 0) → Obj.get fields "message" = some m →
      delayOrMessage (.obj fields) = .ok m) := by
  refine ⟨?_, ?_, ?_⟩
  · intro d hd hne
    simp [delayOrMessage, hd, truthy, hne]
  · intro m hd hm
    simp [delayOrMessage, hd, hm]
  · intro m hd hm
    simp [delayOrMessage, hd, hm, truthy]

/-- C2 witness: a non-zero delay of 650 is returned, a response with only a
message returns the message, and a delay of exactly 0 falls through to the
message. -/
theorem delayOrMessage_field_contract_witness :
    delayOrMessage (.obj [("delay", .int 650)]) = .ok (.int 650) ∧
    delayOrMessage (.obj [("message", .str "timeout")]) = .ok (.str "timeout") ∧
    delayOrMessage (.obj [("delay", .int 0), ("message", .str "timeout")]) = .ok (.str "timeout") :=
  ⟨(delayOrMessage_field_contract _).1 650 rfl (by decide),
   (delayOrMessage_field_contract _).2.1 _ rfl rfl,
   (delayOrMessage_field_contract _).2.2 _ rfl rfl⟩

/-- C4: looking up a proxy name with no entry of that name in the loaded
document does not fail with a distinct lookup-miss error: the unguarded
`next` raises a bare `StopIteration` (the code's own FIXME comment flags
exactly this). -/
theorem fetch_proxy_missing_name_raises_stopIteration :
    Config.fetch_proxy { data := docA, healthy_proxies := none } "b"
      = .error .stopIteration := rfl

/-- C6 counterexample: both load-failure cases raise the same exception
class `FileNotFoundError`; the path-exists-but-is-not-a-regular-file case is
not a distinct InvalidInput-type error. -/
theorem config_init_error_classes_coincide :
    Config.init fsMissing "c.yml" = .error (.fileNotFoundError "c.yml not found.") ∧
    Config.init fsDir "c.yml" = .error (.fileNotFoundError "c.yml is not a file.") ∧
    PyErr.className (.fileNotFoundError "c.yml not found.")
      = PyErr.className (.fileNotFoundError "c.yml is not a file.") :=
  ⟨rfl, rfl, rfl⟩

/-- C6 (amended): loading fails with `FileNotFoundError("<path> not found.")`
when the path does not exist, and with `FileNotFoundError("<path> is not a
file.")` when the path exists but is not a regular file; both share the
exception class and are distinguishable only by their messages, which always
differ. -/
theorem config_init_failure_cases (fs : FileSys) (p : String) :
    (fs.pathExists p = false →
      Config.init fs p = .error (.fileNotFoundError (p ++ " not found."))) ∧
    (fs.pathExists p = true → fs.isfile p = false →
      Config.init fs p = .error (.fileNotFoundError (p ++ " is not a file."))) ∧
    (p ++ " not found.") ≠ (p ++ " is not a file.") := by
  refine ⟨?_, ?_, ?_⟩
  · intro h
    simp [Config.init, h]
  · intro h1 h2
    simp [Config.init, h1, h2]
  · intro h
    have hlen := congrArg String.length h
    simp [String.length_append] at hlen
    exact absurd hlen (by decide)

/-- C6 witness: the two failure cases at path `config.yaml` on concrete
filesystems, with distinct messages. -/
theorem config_init_failure_cases_witness :
    Config.init fsMissing "config.yaml"
      = .error (.fileNotFoundError "config.yaml not found.") ∧
    Config.init fsDir "config.yaml"
      = .error (.fileNotFoundError "config.yaml is not a file.") ∧
    ("config.yaml" ++ " not found.") ≠ ("config.yaml" ++ " is not a file.") :=
  ⟨(config_init_failure_cases fsMissing "config.yaml").1 rfl,
   (config_init_failure_cases fsDir "config.yaml").2.1 rfl rfl,
   (config_init_failure_cases fsDir "config.yaml").2.2⟩

/-- C7 counterexample: loading a configuration and calling `save` with no
entries recorded in between does not succeed: it raises `AttributeError`,
because no accumulator exists yet. -/
theorem load_then_save_without_adds_fails :
    Config.init fsDocA "c.yml" = .ok { data := docA, healthy_proxies := none } ∧
    Config.save { data := docA, healthy_proxies := none }
      = .error (.attributeError "healthy_proxies") :=
  ⟨rfl, rfl⟩

/-- C7 (amended): after any successful load, the `healthy_proxies`
accumulator does not default to the empty list — it is absent until the
first `add_proxy` call — so calling `save` with no entries recorded fails
with `AttributeError` instead of reproducing the document. -/
theorem save_without_recording_raises (fs : FileSys) (p : String) (c : Config)
    (h : Config.init fs p = .ok c) :
    c.healthy_proxies = none ∧
    c.save = .error (.attributeError "healthy_proxies") := by
  have hc : c = { data := fs.readYaml p, healthy_proxies := none } := by
    by_cases h1 : fs.pathExists p = false
    · simp [Config.init, h1] at h
    · by_cases h2 : fs.isfile p = false
      · simp [Config.init, h1, h2] at h
      · simp [Config.init, h1, h2] at h
        exact h.symm
  subst hc
  exact ⟨rfl, rfl⟩

/-- C7 witness: the amended claim at a concrete filesystem and document. -/
theorem save_without_recording_raises_witness :
    Config.healthy_proxies { data := docA, healthy_proxies := none } = none ∧
    Config.save { data := docA, healthy_proxies := none }
      = .error (.attributeError "healthy_proxies") :=
  save_without_recording_raises fsDocA "c.yml"
    { data := docA, healthy_proxies := none } rfl

/-- C9: a delay-check response object with no truthy `delay` field and no
`message` key makes `get_proxy_delay` raise `KeyError` on `message` instead
of returning a value. -/
theorem delayOrMessage_missing_message_keyError (fields : Obj)
    (hdelay : ∀ v, Obj.get fields "delay" = some v → truthy v = false)
    (hmsg : Obj.get fields "message" = none) :
    delayOrMessage (.obj fields) = .error (.keyError "message") := by
  cases hd : Obj.get fields "delay" with
  | none => simp [delayOrMessage, hd, hmsg]
  | some v =>
    have hv := hdelay v hd
    simp [delayOrMessage, hd, hv, hmsg]

/-- C8: when the configuration file path does not exist, the run fails with
the not-found error and its request trace is empty — no network request is
issued before a successful configuration load; more generally any failing
load ends the run with an empty request trace. -/
theorem run_no_network_before_config_load (fs : FileSys) (net : Net)
    (p : String) (timeout : Int) :
    (fs.pathExists p = false →
      ProxyChecker.run fs net p timeout
        = ([], [], .error (.fileNotFoundError (p ++ " not found.")))) ∧
    (∀ e, Config.init fs p = .error e →
      ProxyChecker.run fs net p timeout = ([], [], .error e)) := by
  constructor
  · intro h
    simp [ProxyChecker.run, Config.init, h]
  · intro e he
    simp [ProxyChecker.run, he]

/-- C8 witness: on a filesystem with no files the run issues no request. -/
theorem run_no_network_before_config_load_witness :
    ProxyChecker.run fsMissing netMixed "c.yml" 1500
      = ([], [], .error (.fileNotFoundError ("c.yml" ++ " not found."))) :=
  (run_no_network_before_config_load fsMissing netMixed "c.yml" 1500).1 rfl

/-- Entries before the first name match, all naming something else, are
skipped by the lookup generator. -/
theorem findProxy_append_skip (n : String) (pre rest : List YVal)
    (hpre : ∀ p ∈ pre, ∃ v, dictIndex p "name" = .ok v ∧ nameMatches v n = false) :
    findProxy n (pre ++ rest) = findProxy n rest := by
  induction pre with
  | nil => rfl
  | cons p ps ih =>
    obtain ⟨v, hv, hm⟩ := hpre p (by simp)
    have hrest := ih (fun q hq => hpre q (by simp [hq]))
    simpa [findProxy, hv, hm] using hrest

/-- C10: when the proxies list holds several entries with the looked-up name,
`fetch_proxy` returns the first one in document order. -/
theorem fetch_proxy_first_in_document_order (doc : Obj) (pre post : List YVal)
    (e : YVal) (n : String)
    (hdoc : Obj.get doc "proxies" = some (.arr (pre ++ e :: post)))
    (hname : dictIndex e "name" = .ok (.str n))
    (hpre : ∀ p ∈ pre, ∃ v, dictIndex p "name" = .ok v ∧ nameMatches v n = false) :
    Config.fetch_proxy { data := doc, healthy_proxies := none } n = .ok e := by
  have hlist : Config.proxiesList { data := doc, healthy_proxies := none }
      = .ok (pre ++ e :: post) := by
    simp [Config.proxiesList, hdoc]
  simp [Config.fetch_proxy, bind, Except.bind, hlist,
    findProxy_append_skip n pre _ hpre, findProxy, hname, nameMatches]

/-- C10 witness: two entries named `x` with different payloads; the lookup
returns the first. -/
theorem fetch_proxy_first_in_document_order_witness :
    Config.fetch_proxy { data := docDup, healthy_proxies := none } "x" = .ok entryX1 :=
  fetch_proxy_first_in_document_order docDup [entryW] [entryX2] entryX1 "x" rfl rfl
    (by
      intro p hp
      simp [entryW] at hp
      subst hp
      exact ⟨.str "w", rfl, rfl⟩)

/-- `fetch_proxy` only reads the loaded document, never the accumulator. -/
theorem fetch_proxy_ignores_accumulator (doc : Obj) (acc : Option (List YVal))
    (n : String) :
    Config.fetch_proxy { data := doc, healthy_proxies := acc } n
      = Config.fetch_proxy { data := doc, healthy_proxies := none } n := rfl

/-- Folding `add_proxy` over names that all resolve appends the fetched
entries, in call order, to the accumulator. -/
theorem add_proxies_accumulates (doc : Obj) (es : String → YVal) :
    ∀ (ns : List String) (acc : List YVal),
      (∀ n ∈ ns, Config.fetch_proxy { data := doc, healthy_proxies := none } n = .ok (es n)) →
      add_proxies { data := doc, healthy_proxies := some acc } ns
        = .ok { data := doc, healthy_proxies := some (acc ++ ns.map es) } := by
  intro ns
  induction ns with
  | nil =>
    intro acc h
    simp [add_proxies]
  | cons n rest ih =>
    intro acc h
    have hf : Config.fetch_proxy { data := doc, healthy_proxies := some acc } n
        = .ok (es n) := by
      rw [fetch_proxy_ignores_accumulator]
      exact h n (by simp)
    have hrest := ih (acc ++ [es n]) (fun m hm => h m (by simp [hm]))
    simp [add_proxies, Config.add_proxy, hf, hrest]

/-- C5 counterexample: with the empty recorded sequence nothing is written at
all — `save` raises `AttributeError` instead of producing a document whose
proxies list holds the (zero) recorded entries. -/
theorem save_after_empty_sequence_fails :
    add_proxies { data := docA, healthy_proxies := none } []
      = .ok { data := docA, healthy_proxies := none } ∧
    Config.save { data := docA, healthy_proxies := none }
      = .error (.attributeError "healthy_proxies") :=
  ⟨rfl, rfl⟩

/-- C5 (amended): after recording any nonempty sequence of entries by name,
`save` writes a document whose proxies list is exactly the recorded entries
in recorded order, and every other top-level field of the loaded document is
unchanged. -/
theorem save_after_adds_writes_recorded_entries (doc : Obj) (ns : List String)
    (es : String → YVal) (hne : ns ≠ [])
    (hfetch : ∀ n ∈ ns,
      Config.fetch_proxy { data := doc, healthy_proxies := none } n = .ok (es n)) :
    ∃ c : Config,
      add_proxies { data := doc, healthy_proxies := none } ns = .ok c ∧
      Config.save c = .ok (Obj.set doc "proxies" (.arr (ns.map es))) ∧
      Obj.get (Obj.set doc "proxies" (.arr (ns.map es))) "proxies"
        = some (.arr (ns.map es)) ∧
      ∀ k, k ≠ "proxies" →
        Obj.get (Obj.set doc "proxies" (.arr (ns.map es))) k = Obj.get doc k := by
  cases ns with
  | nil => exact absurd rfl hne
  | cons n rest =>
    refine ⟨{ data := doc, healthy_proxies := some ((n :: rest).map es) }, ?_, ?_, ?_, ?_⟩
    · have hf := hfetch n (by simp)
      have hrest := add_proxies_accumulates doc es rest [es n]
        (fun m hm => hfetch m (by simp [hm]))
      simp [add_proxies, Config.add_proxy, hf, hrest]
    · simp [Config.save]
    · exact Obj.get_set_self doc "proxies" _
    · intro k hk
      exact Obj.get_set_ne doc "proxies" k _ hk

/-- C5 witness: recording `b` then `a` from `docAB` and saving yields the
document with exactly those entries in that order, the sibling `port` field
unchanged. -/
theorem save_after_adds_writes_recorded_entries_witness :
    (add_proxies { data := docAB, healthy_proxies := none } ["b", "a"]).bind Config.save
      = .ok (Obj.set docAB "proxies" (.arr (["b", "a"].map pickAB))) ∧
    Obj.get (Obj.set docAB "proxies" (.arr (["b", "a"].map pickAB))) "port"
      = Obj.get docAB "port" := by
  obtain ⟨c, h1, h2, h3, h4⟩ :=
    save_after_adds_writes_recorded_entries docAB ["b", "a"] pickAB (by simp)
      (by
        intro n hn
        simp at hn
        rcases hn with rfl | rfl <;> rfl)
  refine ⟨?_, h4 "port" (by decide)⟩
  rw [h1]
  simpa [Except.bind] using h2

/-- C9 witness: the response object with a zero delay and no message key. -/
theorem delayOrMessage_missing_message_keyError_witness :
    delayOrMessage (.obj [("delay", .int 0)]) = .error (.keyError "message") :=
  delayOrMessage_missing_message_keyError [("delay", .int 0)]
    (by
      intro v hv
      simp [Obj.get] at hv
      subst hv
      rfl)
    rfl

/-- Filtering through `_validate_proxy` with every details fetch resolving a
kind tag keeps, in order, exactly the names whose tag is not excluded. -/
theorem filterValidate_ok (net : Net) (t : String → YVal) :
    ∀ names : List String,
      (∀ n ∈ names, dictIndex (net.detailsResp n) "type" = .ok (t n)) →
      filterValidate net names
        = (names.map Req.detailsReq,
           .ok (names.filter (fun n => !typeIsExcluded (t n)))) := by
  intro names
  induction names with
  | nil => intro h; rfl
  | cons n rest ih =>
    intro h
    have hn := h n (by simp)
    have hrest := ih (fun m hm => h m (by simp [hm]))
    by_cases hb : typeIsExcluded (t n) <;>
      simp [filterValidate, validate_proxy, get_proxy_details, hn, hrest,
        List.filter_cons, hb]

/-- C3 counterexample: the code matches the daemon tags
`("Direct", "Reject", "select", "url-test", "relay", "fallback")`, not the
claimed lowercase set — a member whose fetched kind tag is `selector` is
still returned by `get_proxies`, although `selector` lies in the claimed
excluded set. -/
theorem get_proxies_spec_excluded_set_fails :
    (get_proxies netSelectorTag).2 = .ok ["p"] ∧
    dictIndex (Net.detailsResp netSelectorTag "p") "type" = .ok (.str "selector") ∧
    specExcludedKinds.contains "selector" = true :=
  ⟨rfl, rfl, by decide⟩

/-- C3 (amended): `get_proxies` returns exactly the subsequence, in original
order, of the GLOBAL group's `all` list whose fetched kind tag is not in the
code's excluded set `("Direct", "Reject", "select", "url-test", "relay",
"fallback")`, matched case-sensitively; no returned name has a kind tag in
that set. -/
theorem get_proxies_code_excluded_set (net : Net) (names : List String)
    (t : String → YVal)
    (hnames : parseProxyNames net.proxiesResp = .ok names)
    (ht : ∀ n ∈ names, dictIndex (net.detailsResp n) "type" = .ok (t n)) :
    (get_proxies net).2 = .ok (names.filter (fun n => !typeIsExcluded (t n))) ∧
    (names.filter (fun n => !typeIsExcluded (t n))).Sublist names ∧
    ∀ n ∈ names.filter (fun n => !typeIsExcluded (t n)),
      typeIsExcluded (t n) = false := by
  refine ⟨?_, List.filter_sublist _, ?_⟩
  · simp [get_proxies, hnames, filterValidate_ok net t names ht]
  · intro n hn
    have hmem := List.of_mem_filter hn
    simpa using hmem

/-- C3 witness: of the members `a`, `g`, `b` with `g` tagged `select`, the
returned list is `a`, `b` in order. -/
theorem get_proxies_code_excluded_set_witness :
    (get_proxies netMixed).2
      = .ok ((["a", "g", "b"]).filter (fun n => !typeIsExcluded (tagMixed n))) ∧
    ((["a", "g", "b"]).filter (fun n => !typeIsExcluded (tagMixed n))).Sublist
      ["a", "g", "b"] := by
  obtain ⟨h1, h2, h3⟩ :=
    get_proxies_code_excluded_set netMixed ["a", "g", "b"] tagMixed rfl
      (by
        intro n hn
        simp at hn
        rcases hn with rfl | rfl | rfl <;> rfl)
  exact ⟨h1, h2⟩

/-- Checking a list of names whose delay responses all decode prints one
line per name, in order, colored from the decoded delay. -/
theorem execLoop_ok (net : Net) (timeout : Int) (f : String → YVal) :
    ∀ names : List String,
      (∀ n ∈ names, delayOrMessage (net.delayResp n) = .ok (f n)) →
      execLoop net timeout names
        = (names.map (fun n => Req.delayReq n probeUrl timeout),
           names.map (fun n => { proxy := n, color := delayColor (f n), delay := f n }),
           .ok ()) := by
  intro names
  induction names with
  | nil => intro h; rfl
  | cons n rest ih =>
    intro h
    have hn := h n (by simp)
    have hrest := ih (fun m hm => h m (by simp [hm]))
    simp [execLoop, get_proxy_delay, hn, hrest]

/-- C1: for every proxy name processed by `exec`, the decoded delay result is
classified into exactly one severity band — a numeric delay below 500 is
good, from 500 to 899 degraded, 900 or more or any non-numeric result bad —
and one line per proxy is printed carrying the name, the raw delay or
message, and the band's color. -/
theorem exec_one_classified_line_per_proxy (net : Net) (timeout : Int)
    (names : List String) (f : String → YVal)
    (hlist : (get_proxies net).2 = .ok names)
    (hdelay : ∀ n ∈ names, delayOrMessage (net.delayResp n) = .ok (f n)) :
    (exec net timeout).2.1
        = names.map (fun n => { proxy := n, color := delayColor (f n), delay := f n }) ∧
    (exec net timeout).2.2 = .ok () ∧
    (∀ v, (delayColor v).severity = .good ↔ ∃ d : Int, v = .int d ∧ d < 500) ∧
    (∀ v, (delayColor v).severity = .degraded ↔
      ∃ d : Int, v = .int d ∧ 500 ≤ d ∧ d ≤ 899) ∧
    (∀ v, (delayColor v).severity = .bad ↔ ∀ d : Int, v = .int d → 900 ≤ d) := by
  have hpair : get_proxies net = ((get_proxies net).1, .ok names) := by
    rw [← hlist]
  have hloop := execLoop_ok net timeout f names hdelay
  have hexec : exec net timeout
      = ((get_proxies net).1 ++ names.map (fun n => Req.delayReq n probeUrl timeout),
         names.map (fun n => { proxy := n, color := delayColor (f n), delay := f n }),
         .ok ()) := by
    unfold exec
    rw [hpair]
    simp [hloop]
  refine ⟨by rw [hexec], by rw [hexec], ?_, ?_, ?_⟩
  · intro v
    cases v with
    | int d =>
      simp only [delayColor]
      split_ifs with h1 h2 <;> simp [Color.severity] <;> omega
    | str s => simp [delayColor, Color.severity]
    | bool b => simp [delayColor, Color.severity]
    | null => simp [delayColor, Color.severity]
    | arr l => simp [delayColor, Color.severity]
    | obj o => simp [delayColor, Color.severity]
  · intro v
    cases v with
    | int d =>
      simp only [delayColor]
      split_ifs with h1 h2 <;> simp [Color.severity] <;> omega
    | str s => simp [delayColor, Color.severity]
    | bool b => simp [delayColor, Color.severity]
    | null => simp [delayColor, Color.severity]
    | arr l => simp [delayColor, Color.severity]
    | obj o => simp [delayColor, Color.severity]
  · intro v
    cases v with
    | int d =>
      simp only [delayColor]
      split_ifs with h1 h2 <;> simp [Color.severity] <;> omega
    | str s => simp [delayColor, Color.severity]
    | bool b => simp [delayColor, Color.severity]
    | null => simp [delayColor, Color.severity]
    | arr l => simp [delayColor, Color.severity]
    | obj o => simp [delayColor, Color.severity]

/-- C1 witness: the mixed daemon prints a green 320 ms line for `a` and a
red timeout line for `b`, one line per leaf proxy. -/
theorem exec_one_classified_line_per_proxy_witness :
    (exec netMixed 1500).2.1
      = (["a", "b"]).map
          (fun n => { proxy := n, color := delayColor (delayMixed n), delay := delayMixed n }) ∧
    (exec netMixed 1500).2.2 = .ok () := by
  have h := exec_one_classified_line_per_proxy netMixed 1500 ["a", "b"] delayMixed rfl
    (by
      intro n hn
      simp at hn
      rcases hn with rfl | rfl <;> rfl)
  exact ⟨h.1, h.2.1⟩

end ProxyCheck
